import Mathlib

/-!
Shallow embedding of the bank ledger / account-lifecycle engine.

The monetary arithmetic of the source (JavaScript numbers) is embedded in ℚ,
with `Math.round(x * 100) / 100` modelled exactly as rounding half-up at two
decimals.  Dates are calendar triples (year, zero-based month, day of month)
mirroring `getFullYear` / `getMonth` / `getDate`; the current clock
(`new Date()`) is threaded through the operations as an explicit `today`
parameter, and the random `transferId` of `executeTransfer` as an explicit
argument.  The database is a `Bank` record holding the `Accounts`,
`Transactions` and `GICProducts` tables as lists in rowid order; a
`db.transaction` block is a pure state-to-state function, so its two halves
are all-or-nothing by construction, and fallible operations return `Except`.
-/

namespace BankSpec

/-! ### constants.js -/

def PENDING : Nat := 1
def APPROVED : Nat := 2
def REJECTED : Nat := 3
def ACTIVE : Nat := 4
def CLOSED : Nat := 5
def PAID_OFF : Nat := 6

/-- Seeded `Status` lookup table (utils/db.js): StatusID → StatusName. -/
def statusName (statusId : Nat) : String :=
  if statusId = 1 then "Pending"
  else if statusId = 2 then "Approved"
  else if statusId = 3 then "Rejected"
  else if statusId = 4 then "Active"
  else if statusId = 5 then "Closed"
  else if statusId = 6 then "Paid Off"
  else ""

def DEPOSIT : Nat := 1
def WITHDRAWAL : Nat := 2
def TRANSFER : Nat := 3

def CHEQUING : Nat := 1
def LOAN : Nat := 2
def SAVING : Nat := 3
def INVESTMENT : Nat := 4

/-! ### Calendar dates -/

/-- A calendar date at local midnight: `year`, zero-based `month` (0–11, as
JavaScript `getMonth`), `day` of month (1–31, as `getDate`). -/
structure Date where
  year : Nat
  month : Nat
  day : Nat
deriving DecidableEq

/-- Totally ordered key for valid dates; for `month ≤ 11` and `day ≤ 31` it
orders dates exactly like JavaScript timestamp comparison of midnights. -/
def Date.key (d : Date) : Nat := d.year * 372 + d.month * 31 + d.day

def Date.leB (d e : Date) : Bool := d.key ≤ e.key

def Date.ltB (d e : Date) : Bool := d.key < e.key

def isLeapYear (y : Nat) : Bool := y % 4 = 0 && (y % 100 ≠ 0 || y % 400 = 0)

/-- Days in a zero-based month of a given year. -/
def daysInMonth (y m : Nat) : Nat :=
  if m = 1 then (if isLeapYear y then 29 else 28)
  else if m = 3 || m = 5 || m = 8 || m = 10 then 30
  else 31

/-- JavaScript `date.setMonth(date.getMonth() + t)`: months overflow into
years, and a day past the end of the resulting month rolls into the next
month (e.g. Jan 31 + 1 month = Mar 2 or 3). -/
def Date.addMonths (d : Date) (t : Nat) : Date :=
  let m := d.month + t
  let y := d.year + m / 12
  let mo := m % 12
  let dim := daysInMonth y mo
  if d.day ≤ dim then ⟨y, mo, d.day⟩
  else if mo = 11 then ⟨y + 1, 0, d.day - dim⟩
  else ⟨y, mo + 1, d.day - dim⟩

/-! ### Rounding and string rendering of amounts -/

/-- JavaScript `Math.round`: round half toward positive infinity. -/
def jsRound (q : ℚ) : ℤ := ⌊q + 1/2⌋

/-- The source's `Math.round(x * 100) / 100`: round to 2 decimal places. -/
def round2 (q : ℚ) : ℚ := (jsRound (q * 100) : ℚ) / 100

/-- JavaScript `x.toFixed(2)` for the nonnegative amounts interpolated into
ledger descriptions. -/
def fixed2 (q : ℚ) : String :=
  let c := (jsRound (q * 100)).natAbs
  let frac := c % 100
  (if q < 0 then "-" else "") ++ toString (c / 100) ++ "." ++
    (if frac < 10 then "0" else "") ++ toString frac

/-- Rendering of a plain interpolated number such as `${loan.InterestRate}`;
only ever inspected as an opaque suffix of a description. -/
def numStr (q : ℚ) : String := toString q

/-! ### Data model (utils/db.js tables; columns the engine never reads —
`Balance`, `MinimumBalance`, `CreatedAt`, `Category`, `ProductID` — are
omitted) -/

structure Txn where
  accountId : Nat
  transactionTypeId : Nat
  amount : ℚ
  date : Date
  description : String
  transferId : Option String
  statusId : Nat
deriving DecidableEq

structure Account where
  accountId : Nat
  userId : Nat
  accountTypeId : Nat
  statusId : Nat
  principalAmount : ℚ
  interestRate : ℚ
  term : Nat
  startDate : Date
  paymentFrequency : Option String
  description : String
deriving DecidableEq

structure GICProduct where
  productId : Nat
  productName : String
  interestRate : ℚ
  term : Nat
  minimumAmount : ℚ
deriving DecidableEq

structure Bank where
  accounts : List Account
  txns : List Txn
  products : List GICProduct
deriving DecidableEq

/-! ### account.service.js -/

/-- `SELECT * FROM Accounts WHERE AccountID = ?` (first row). -/
def getAccount (s : Bank) (accountId : Nat) : Option Account :=
  s.accounts.find? (fun a => a.accountId == accountId)

/-- Loan lookup: `... WHERE AccountID = ? AND AccountTypeID = 2`. -/
def getLoan (s : Bank) (loanId : Nat) : Option Account :=
  s.accounts.find? (fun a => a.accountId == loanId && a.accountTypeId == LOAN)

/-- GIC lookup: `... WHERE AccountID = ? AND AccountTypeID = 4`. -/
def getGIC (s : Bank) (gicId : Nat) : Option Account :=
  s.accounts.find? (fun a => a.accountId == gicId && a.accountTypeId == INVESTMENT)

/-- `SELECT AccountID FROM Accounts WHERE UserID = ? AND AccountTypeID = 1`. -/
def chequingOf (s : Bank) (userId : Nat) : Option Account :=
  s.accounts.find? (fun a => a.userId == userId && a.accountTypeId == CHEQUING)

/-- Sign applied to an amount in the balance queries:
`CASE WHEN TransactionTypeID = 1 THEN 1 ELSE -1 END`. -/
def txnSign (t : Txn) : ℚ := if t.transactionTypeId = DEPOSIT then 1 else -1

/-- `getBalance`: total balance over all of the account's transactions. -/
def getBalance (s : Bank) (accountId : Nat) : ℚ :=
  ((s.txns.filter (fun t => t.accountId == accountId)).map
    (fun t => t.amount * txnSign t)).sum

/-- `getApprovedBalance`: the query joins `Status` and keeps rows with
`StatusName = 'Active' OR StatusName = 'Paid Off'`. -/
def getApprovedBalance (s : Bank) (accountId : Nat) : ℚ :=
  ((s.txns.filter (fun t => t.accountId == accountId &&
      (statusName t.statusId == "Active" || statusName t.statusId == "Paid Off"))).map
    (fun t => t.amount * txnSign t)).sum

/-- `updateAccountStatus`: `UPDATE Accounts SET StatusID = ? WHERE AccountID = ?`. -/
def updateAccountStatus (s : Bank) (accountId statusId : Nat) : Bank :=
  { s with accounts :=
      s.accounts.map (fun a =>
        if a.accountId == accountId then { a with statusId := statusId } else a) }

/-! ### transaction.service.js -/

/-- `createTransaction`: append a row to `Transactions`.  The JavaScript
performs no validation of any field here. -/
def createTransaction (s : Bank) (accountId transactionTypeId : Nat) (amount : ℚ)
    (date : Date) (description : String) (transferId : Option String)
    (statusId : Nat) : Bank :=
  { s with txns := s.txns ++
      [⟨accountId, transactionTypeId, amount, date, description, transferId, statusId⟩] }

/-- `createSystemTransaction`: auto-approved, dated today, description
prefixed with `"[SYSTEM] "`. -/
def createSystemTransaction (s : Bank) (today : Date) (accountId transactionTypeId : Nat)
    (amount : ℚ) (description : String) : Bank :=
  createTransaction s accountId transactionTypeId amount today
    ("[SYSTEM] " ++ description) none APPROVED

/-- `executeTransfer`: inside one `db.transaction` block, credit the
destination then debit the source — same `transferId`, same value date,
both `APPROVED`. -/
def executeTransfer (s : Bank) (transferId : String) (today : Date)
    (sourceAccountId destinationAccountId : Nat) (amount : ℚ)
    (sourceDescription destinationDescription : String) : Bank :=
  let s1 := createTransaction s destinationAccountId DEPOSIT amount today
    destinationDescription (some transferId) APPROVED
  createTransaction s1 sourceAccountId WITHDRAWAL amount today
    sourceDescription (some transferId) APPROVED

/-! ### financial.service.js -/

def calculateSimpleInterest (principal annualRate : ℚ) (days : ℚ) : ℚ :=
  principal * (annualRate / 100 / 365) * days

def calculateAccruedInterest (currentBalance annualRate : ℚ) (days : ℚ) : ℚ :=
  calculateSimpleInterest currentBalance annualRate days

/-- `calculateCompoundInterest principal annualRate compoundingPeriods years`
returns the interest portion of `principal * (1 + rate/periods)^(periods*years)`.
Its only caller passes `compoundingPeriods = 12` and `years = termMonths / 12`,
so the real-number exponent `compoundingPeriods * years` is the integer
`termMonths`, which is how the power is embedded here. -/
def calculateCompoundInterest (principal annualRate compoundingPeriods : ℚ)
    (exponent : Nat) : ℚ :=
  principal * (1 + annualRate / 100 / compoundingPeriods) ^ exponent - principal

def calculateMaturityDate (startDate : Date) (termMonths : Nat) : Date :=
  startDate.addMonths termMonths

def hasReachedMaturity (today : Date) (startDate : Date) (termMonths : Nat) : Bool :=
  (calculateMaturityDate startDate termMonths).leB today

def calculateGICMaturityValue (principal annualRate : ℚ) (termMonths : Nat) : ℚ :=
  principal + calculateCompoundInterest principal annualRate 12 termMonths

/-! ### loan.service.js -/

/-- `checkLoanPayoff`: on an `ACTIVE` loan, mark it `PAID_OFF` exactly when
`balance >= loan.PrincipalAmount`. -/
def checkLoanPayoff (loanId : Nat) (s : Bank) : Bank × Bool :=
  match getLoan s loanId with
  | none => (s, false)
  | some loan =>
    if loan.statusId ≠ ACTIVE then (s, false)
    else
      let balance := getBalance s loanId
      if loan.principalAmount ≤ balance then
        (updateAccountStatus s loanId PAID_OFF, true)
      else (s, false)

def charsArePrefix : List Char → List Char → Bool
  | [], _ => true
  | _ :: _, [] => false
  | c :: cs, d :: ds => c == d && charsArePrefix cs ds

/-- SQLite `Description LIKE 'pat%'`: with the only wildcard the trailing
`%`, the pattern matches an initial segment of the stored text.  (SQLite
`LIKE` compares ASCII case-insensitively; the generated descriptions all use
fixed casing, so a character-wise comparison is exact here.) -/
def likeStart (text pat : String) : Bool :=
  charsArePrefix pat.data text.data

/-- The `LIKE` pattern `disburseLoan` uses to look for a prior disbursement:
`'Loan disbursement - Loan #<loanId>%'`. -/
def disbursePattern (loanId : Nat) : String :=
  "Loan disbursement - Loan #" ++ toString loanId

/-- The description `disburseLoan` hands to `createSystemTransaction`:
`` `Loan disbursement - Loan #${loanId} ($${principal.toFixed(2)} at ${rate}% APR)` ``. -/
def disbursementDescription (loanId : Nat) (principal rate : ℚ) : String :=
  disbursePattern loanId ++ " ($" ++ fixed2 principal ++ " at " ++ numStr rate ++ "% APR)"

/-- `disburseLoan`: deposit the principal into the borrower's chequing
account once the start date is reached, unless a transaction whose
description begins with `disbursePattern` already sits on that account. -/
def disburseLoan (today : Date) (loanId : Nat) (s : Bank) : Except String (Bank × Bool) :=
  match getLoan s loanId with
  | none => .ok (s, false)
  | some loan =>
    if loan.statusId ≠ ACTIVE then .ok (s, false)
    else if today.ltB loan.startDate then .ok (s, false)
    else
      match chequingOf s loan.userId with
      | none => .error "User chequing account not found"
      | some chequingAccount =>
        if s.txns.any (fun t => t.accountId == chequingAccount.accountId &&
            likeStart t.description (disbursePattern loanId)) then
          .ok (s, false)
        else
          .ok (createSystemTransaction s today chequingAccount.accountId DEPOSIT
                loan.principalAmount
                (disbursementDescription loanId loan.principalAmount loan.interestRate),
              true)

/-- `(now.getFullYear() - start.getFullYear()) * 12 + (now.getMonth() - start.getMonth())`. -/
def monthsElapsed (now startDate : Date) : ℤ :=
  ((now.year : ℤ) - startDate.year) * 12 + ((now.month : ℤ) - startDate.month)

/-- Monthly interest charge: `Math.round((P * r / 100) / 12 * 100) / 100`. -/
def monthlyInterestAmount (loan : Account) : ℚ :=
  round2 (loan.principalAmount * loan.interestRate / 100 / 12)

/-- Annual interest charge: `Math.round(P * r / 100 * 100) / 100`. -/
def annualInterestAmount (loan : Account) : ℚ :=
  round2 (loan.principalAmount * loan.interestRate / 100)

/-- Description of an interest withdrawal:
`` `${period} loan interest payment - Loan #${loanId} (${rate}% APR)` ``. -/
def interestDescription (period : String) (loanId : Nat) (rate : ℚ) : String :=
  period ++ " loan interest payment - Loan #" ++ toString loanId ++
    " (" ++ numStr rate ++ "% APR)"

/-- `processLoanInterest`: only the frequency strings `'Monthly'` and
`'Annual'` have a due-date rule; any other frequency sets no due date.
Returns whether an interest withdrawal was appended. -/
def processLoanInterest (now : Date) (loanId : Nat) (s : Bank) :
    Except String (Bank × Bool) :=
  match getLoan s loanId with
  | none => .ok (s, false)
  | some loan =>
    if loan.statusId ≠ ACTIVE then .ok (s, false)
    else
      let me := monthsElapsed now loan.startDate
      let isAnniversaryDay := now.day = loan.startDate.day
      let due :=
        if loan.paymentFrequency = some "Monthly" then
          if 0 < me ∧ isAnniversaryDay then
            some (monthlyInterestAmount loan, "Monthly") else none
        else if loan.paymentFrequency = some "Annual" then
          if 0 < me ∧ me % 12 = 0 ∧ isAnniversaryDay then
            some (annualInterestAmount loan, "Annual") else none
        else none
      match due with
      | none => .ok (s, false)
      | some (interestAmount, periodDescription) =>
        if interestAmount ≤ 0 then .ok (s, false)
        else
          match chequingOf s loan.userId with
          | none => .error "User chequing account not found"
          | some chequingAccount =>
            .ok (createSystemTransaction s now chequingAccount.accountId WITHDRAWAL
                  interestAmount
                  (interestDescription periodDescription loanId loan.interestRate),
                true)

/-- Description of the final maturity withdrawal on a loan. -/
def loanMaturityDescription (loanId : Nat) (remaining : ℚ) : String :=
  "Loan maturity - Final payment for Loan #" ++ toString loanId ++
    " (Remaining: $" ++ fixed2 remaining ++ ")"

/-- `checkLoanMaturity`: once the maturity date is reached, withdraw the
remaining owed balance from chequing (when positive) and close the loan,
as one `db.transaction` block. -/
def checkLoanMaturity (today : Date) (loanId : Nat) (s : Bank) :
    Except String (Bank × Bool) :=
  match getLoan s loanId with
  | none => .ok (s, false)
  | some loan =>
    if loan.statusId ≠ ACTIVE then .ok (s, false)
    else if ¬ hasReachedMaturity today loan.startDate loan.term then .ok (s, false)
    else
      let currentBalance := getBalance s loanId
      let remainingBalance := round2 (loan.principalAmount - currentBalance)
      match chequingOf s loan.userId with
      | none => .error "User chequing account not found"
      | some chequingAccount =>
        let s1 :=
          if 0 < remainingBalance then
            createSystemTransaction s today chequingAccount.accountId WITHDRAWAL
              remainingBalance (loanMaturityDescription loanId remainingBalance)
          else s
        .ok (updateAccountStatus s1 loanId CLOSED, true)

/-! ### gic.service.js -/

def getGICProduct (s : Bank) (productId : Nat) : Option GICProduct :=
  s.products.find? (fun p => p.productId == productId)

/-- AUTOINCREMENT id for a freshly inserted account row. -/
def nextAccountId (s : Bank) : Nat :=
  (s.accounts.map (fun a => a.accountId)).foldr max 0 + 1

/-- `purchaseGIC`: validate the product minimum then the available balance;
on success, create the `Investment` account (snapshotting the product's rate
and term) and append the chequing withdrawal inside one `db.transaction`. -/
def purchaseGIC (today : Date) (userId chequingAccountId productId : Nat)
    (amount : ℚ) (s : Bank) : Except String (Bank × Nat) :=
  match getGICProduct s productId with
  | none => .error "GIC product not found"
  | some product =>
    if amount < product.minimumAmount then
      .error "Minimum investment amount"
    else
      let availableBalance := getApprovedBalance s chequingAccountId
      if availableBalance < amount then
        .error "Insufficient funds for this investment"
      else
        let gicAccountId := nextAccountId s
        let s1 := { s with accounts := s.accounts ++
          [{ accountId := gicAccountId, userId := userId,
             accountTypeId := INVESTMENT, statusId := ACTIVE,
             principalAmount := amount, interestRate := product.interestRate,
             term := product.term, startDate := today,
             paymentFrequency := none, description := toString productId }] }
        let s2 := createTransaction s1 chequingAccountId WITHDRAWAL amount today
          ("GIC Investment - " ++ product.productName) none APPROVED
        .ok (s2, gicAccountId)

/-- `gic.ProductName || 'Investment'`: the `LEFT JOIN` of `getGIC` resolves
the product name through `Description = CAST(ProductID AS TEXT)`. -/
def gicProductName (s : Bank) (gic : Account) : String :=
  match s.products.find? (fun p => toString p.productId == gic.description) with
  | some p => p.productName
  | none => "Investment"

def gicMaturityDescription (name : String) (principal maturityValue : ℚ) : String :=
  "GIC maturity - " ++ name ++ " (Principal: $" ++ fixed2 principal ++
    ", Maturity: $" ++ fixed2 maturityValue ++ ")"

/-- `matureGIC`: once matured, deposit the rounded compound maturity value
into the owner's chequing account and close the GIC, as one
`db.transaction` block. -/
def matureGIC (today : Date) (gicId : Nat) (s : Bank) : Except String (Bank × Bool) :=
  match getGIC s gicId with
  | none => .ok (s, false)
  | some gic =>
    if gic.statusId ≠ ACTIVE then .ok (s, false)
    else if ¬ hasReachedMaturity today gic.startDate gic.term then .ok (s, false)
    else
      let maturityValue :=
        round2 (calculateGICMaturityValue gic.principalAmount gic.interestRate gic.term)
      match chequingOf s gic.userId with
      | none => .error "User chequing account not found"
      | some chequingAccount =>
        let s1 := createSystemTransaction s today chequingAccount.accountId DEPOSIT
          maturityValue
          (gicMaturityDescription (gicProductName s gic) gic.principalAmount maturityValue)
        .ok (updateAccountStatus s1 gicId CLOSED, true)

/-! ### Daily settlement scheduler (tasks file) -/

/-- The per-account `try { ... } catch (error) { log and continue }` of each
daily pass: an error leaves the state untouched. -/
def catchStep (op : Nat → Bank → Except String (Bank × Bool)) (s : Bank) (id : Nat) : Bank :=
  match op id s with
  | .ok (s1, _) => s1
  | .error _ => s

/-- One pass: fold an operation over a fixed list of account ids. -/
def runPass (op : Nat → Bank → Except String (Bank × Bool)) (ids : List Nat)
    (s : Bank) : Bank :=
  ids.foldl (catchStep op) s

/-- `getActiveLoans()`: ids of `Accounts WHERE AccountTypeID = 2 AND StatusID = 4`,
in rowid order. -/
def activeLoanIds (s : Bank) : List Nat :=
  (s.accounts.filter (fun a => a.accountTypeId == LOAN && a.statusId == ACTIVE)).map
    (fun a => a.accountId)

/-- `getActiveGICs()`: ids of `Accounts WHERE AccountTypeID = 4 AND StatusID = 4`. -/
def activeGicIds (s : Bank) : List Nat :=
  (s.accounts.filter (fun a => a.accountTypeId == INVESTMENT && a.statusId == ACTIVE)).map
    (fun a => a.accountId)

/-- `checkLoanPayoff` never throws; wrapped to fit the pass shape. -/
def payoffOp (loanId : Nat) (s : Bank) : Except String (Bank × Bool) :=
  .ok (checkLoanPayoff loanId s)

def disburseLoanFunds (today : Date) (s : Bank) : Bank :=
  runPass (disburseLoan today) (activeLoanIds s) s

def processLoanInterestPass (today : Date) (s : Bank) : Bank :=
  runPass (processLoanInterest today) (activeLoanIds s) s

def checkLoanPayoffs (s : Bank) : Bank :=
  runPass payoffOp (activeLoanIds s) s

def checkLoanMaturityPass (today : Date) (s : Bank) : Bank :=
  runPass (checkLoanMaturity today) (activeLoanIds s) s

def checkGICMaturityPass (today : Date) (s : Bank) : Bank :=
  runPass (matureGIC today) (activeGicIds s) s

/-- `runDailyTasks`: the five passes in their fixed order, each re-reading
the set of qualifying accounts when it starts. -/
def runDailyTasks (today : Date) (s : Bank) : Bank :=
  checkGICMaturityPass today
    (checkLoanMaturityPass today
      (checkLoanPayoffs
        (processLoanInterestPass today
          (disburseLoanFunds today s))))

/-- Modelled from the spec: the same five passes in the same order, but every
pass iterating over the single snapshot of qualifying accounts taken at the
start of the run ("a snapshot, not a live-updating cursor"). -/
def runDailyTasksSnapshot (today : Date) (s : Bank) : Bank :=
  let loanSnap := activeLoanIds s
  let gicSnap := activeGicIds s
  runPass (matureGIC today) gicSnap
    (runPass (checkLoanMaturity today) loanSnap
      (runPass payoffOp loanSnap
        (runPass (processLoanInterest today) loanSnap
          (runPass (disburseLoan today) loanSnap s))))

/-! ### utils/validators.js -/

/-- `validateAmount`: the route layer's check that an amount is a positive
number (the `NaN` case of `parseFloat` does not arise for a ℚ input). -/
def validateAmount (amount : ℚ) : Except String ℚ :=
  if amount ≤ 0 then .error "Invalid amount" else .ok amount

/-! ### Auxiliary predicates over the embedding -/

/-- Modelled from the spec: §4.5's `checkPayoff` quantity
`principal + accruedInterestToYesterday − currentLoanBalance`, with the
accrued interest computed by the source's `calculateAccruedInterest` over
`days` days (start date through yesterday). -/
def specPayoffAmount (principal annualRate days balance : ℚ) : ℚ :=
  principal + calculateAccruedInterest principal annualRate days - balance

/-- Whether account id currently holds an `ACTIVE` loan — the re-read every
per-loan operation performs before acting. -/
def loanIsActive (s : Bank) (loanId : Nat) : Bool :=
  match getLoan s loanId with
  | some loan => loan.statusId == ACTIVE
  | none => false

/-- The state condition under which `disburseLoan` throws
`'User chequing account not found'`: an active loan past its start date whose
owner has no chequing account.  It reads only the `Accounts` table. -/
def disburseThrows (today : Date) (loanId : Nat) (s : Bank) : Prop :=
  ∃ loan, getLoan s loanId = some loan ∧ loan.statusId = ACTIVE ∧
    today.ltB loan.startDate = false ∧ chequingOf s loan.userId = none

/-- Row-wise relation between the state at the start of a settlement run and
a later state of the same run: every account keeps its identity fields, a
row still `ACTIVE` is untouched, and only loan rows ever change (their
status, to `PAID_OFF` or `CLOSED`). -/
def AccountShadow (a b : Account) : Prop :=
  { b with statusId := a.statusId } = a ∧
  (b.statusId = ACTIVE → b.statusId = a.statusId) ∧
  (b.statusId ≠ a.statusId → a.accountTypeId = LOAN)

/-- Lifted to whole states (the `Transactions` table is unconstrained:
settlement only ever appends there). -/
def ShadowRel (s0 s : Bank) : Prop :=
  List.Forall₂ AccountShadow s0.accounts s.accounts

/-! ### Concrete states used to exercise the claims -/

def d0 : Date := ⟨2024, 0, 15⟩

/-- A chequing account holding one admin-approved deposit of 100. -/
def bankC2 : Bank :=
  { accounts := [⟨10, 7, CHEQUING, ACTIVE, 0, 0, 0, ⟨2024, 0, 1⟩, none, ""⟩],
    txns := [⟨10, DEPOSIT, 100, ⟨2024, 0, 5⟩, "Paycheck", none, APPROVED⟩],
    products := [] }

/-- An approved loan past its start date whose owner has an empty chequing
account. -/
def bankC3 : Bank :=
  { accounts :=
      [⟨2, 7, CHEQUING, ACTIVE, 0, 0, 0, ⟨2024, 0, 1⟩, none, ""⟩,
       ⟨1, 7, LOAN, ACTIVE, 1000, 5, 12, ⟨2024, 0, 10⟩, some "Monthly", "car"⟩],
    txns := [],
    products := [] }

/-- An active loan whose ledger holds repayments totalling exactly the
principal, 100 days after a 12% loan started. -/
def bankC4 : Bank :=
  { accounts :=
      [⟨1, 7, LOAN, ACTIVE, 1000, 12, 12, ⟨2024, 0, 10⟩, some "Monthly", "car"⟩],
    txns := [⟨1, DEPOSIT, 1000, ⟨2024, 2, 1⟩, "Transfer from chequing", none, APPROVED⟩],
    products := [] }

/-- A bi-weekly loan, viewed exactly 14 days after its start date. -/
def bankC5 : Bank :=
  { accounts :=
      [⟨2, 7, CHEQUING, ACTIVE, 0, 0, 0, ⟨2024, 0, 1⟩, none, ""⟩,
       ⟨1, 7, LOAN, ACTIVE, 1000, 12, 12, ⟨2024, 2, 1⟩, some "Bi-weekly", "bike"⟩],
    txns := [],
    products := [] }

/-- A monthly loan on its first anniversary day. -/
def bankC5m : Bank :=
  { accounts :=
      [⟨2, 7, CHEQUING, ACTIVE, 0, 0, 0, ⟨2024, 0, 1⟩, none, ""⟩,
       ⟨1, 7, LOAN, ACTIVE, 1000, 12, 12, ⟨2024, 0, 15⟩, some "Monthly", "bike"⟩],
    txns := [],
    products := [] }

/-- A matured 12%/1-month GIC of 1000 next to its owner's chequing account. -/
def bankC6 : Bank :=
  { accounts :=
      [⟨2, 7, CHEQUING, ACTIVE, 0, 0, 0, ⟨2024, 0, 1⟩, none, ""⟩,
       ⟨3, 7, INVESTMENT, ACTIVE, 1000, 12, 1, ⟨2024, 0, 10⟩, none, "1"⟩],
    txns := [],
    products := [] }

/-- A GIC product with a 1000 minimum, next to an empty chequing account. -/
def bankC7 : Bank :=
  { accounts := [⟨10, 7, CHEQUING, ACTIVE, 0, 0, 0, ⟨2024, 0, 1⟩, none, ""⟩],
    txns := [],
    products := [⟨1, "Secure Growth", 5, 12, 1000⟩] }

/-- Two loans of one user whose ids share a decimal prefix; the chequing
account already holds the system-written disbursement of loan 12. -/
def bankC10a : Bank :=
  { accounts :=
      [⟨2, 7, CHEQUING, ACTIVE, 0, 0, 0, ⟨2024, 0, 1⟩, none, ""⟩,
       ⟨1, 7, LOAN, ACTIVE, 1000, 5, 12, ⟨2024, 0, 10⟩, some "Monthly", "car"⟩,
       ⟨12, 7, LOAN, ACTIVE, 500, 5, 12, ⟨2024, 0, 10⟩, some "Monthly", "tv"⟩],
    txns := [⟨2, DEPOSIT, 500, ⟨2024, 0, 12⟩,
      "[SYSTEM] Loan disbursement - Loan #12 ($500.00 at 5% APR)", none, APPROVED⟩],
    products := [] }

/-- As `bankC10a`, but the loan-12 entry carries the bare description the
dedup query scans for. -/
def bankC10b : Bank :=
  { accounts :=
      [⟨2, 7, CHEQUING, ACTIVE, 0, 0, 0, ⟨2024, 0, 1⟩, none, ""⟩,
       ⟨1, 7, LOAN, ACTIVE, 1000, 5, 12, ⟨2024, 0, 10⟩, some "Monthly", "car"⟩,
       ⟨12, 7, LOAN, ACTIVE, 500, 5, 12, ⟨2024, 0, 10⟩, some "Monthly", "tv"⟩],
    txns := [⟨2, DEPOSIT, 500, ⟨2024, 0, 12⟩,
      "Loan disbursement - Loan #12 ($500.00 at 5% APR)", none, APPROVED⟩],
    products := [] }

/-- A tiny settlement universe: a chequing account and one active loan. -/
def bankC9 : Bank :=
  { accounts :=
      [⟨2, 7, CHEQUING, ACTIVE, 0, 0, 0, ⟨2024, 0, 1⟩, none, ""⟩,
       ⟨1, 7, LOAN, ACTIVE, 1000, 5, 12, ⟨2024, 0, 10⟩, some "Monthly", "car"⟩],
    txns := [],
    products := [] }

/-! ### General lemmas -/

theorem getBalance_append (s : Bank) (t : Txn) (accId : Nat) :
    getBalance { s with txns := s.txns ++ [t] } accId =
      getBalance s accId + (if t.accountId = accId then t.amount * txnSign t else 0) := by
  simp only [getBalance, List.filter_append, List.map_append, List.sum_append,
    List.filter_cons, List.filter_nil]
  by_cases h : t.accountId = accId <;> simp [h]

theorem getBalance_createTransaction (s : Bank) (aId tId : Nat) (amount : ℚ)
    (date : Date) (desc : String) (trf : Option String) (st : Nat) (accId : Nat) :
    getBalance (createTransaction s aId tId amount date desc trf st) accId =
      getBalance s accId +
        (if aId = accId then amount * (if tId = DEPOSIT then 1 else -1) else 0) := by
  simpa [createTransaction, txnSign] using
    getBalance_append s ⟨aId, tId, amount, date, desc, trf, st⟩ accId

/-! ### C1: transfer atomicity and conservation -/

/-- C1: a successful `executeTransfer` of amount `A` from `X` to `Y` appends
exactly two ledger entries — a `WITHDRAWAL` of `A` on `X` and a `DEPOSIT` of
`A` on `Y`, with the same `transferId` and the same value date — as one
state-to-state unit, so `balance(X)` drops by exactly `A`, `balance(Y)`
rises by exactly `A`, and no other table changes. -/
theorem executeTransfer_conservation (s : Bank) (tid : String) (today : Date)
    (src dst : Nat) (amount : ℚ) (sDesc dDesc : String) (h : src ≠ dst) :
    executeTransfer s tid today src dst amount sDesc dDesc =
      { s with txns := s.txns ++
          [⟨dst, DEPOSIT, amount, today, dDesc, some tid, APPROVED⟩,
           ⟨src, WITHDRAWAL, amount, today, sDesc, some tid, APPROVED⟩] } ∧
    getBalance (executeTransfer s tid today src dst amount sDesc dDesc) src =
      getBalance s src - amount ∧
    getBalance (executeTransfer s tid today src dst amount sDesc dDesc) dst =
      getBalance s dst + amount ∧
    (executeTransfer s tid today src dst amount sDesc dDesc).accounts = s.accounts := by
  refine ⟨by simp [executeTransfer, createTransaction], ?_, ?_, rfl⟩
  · rw [show executeTransfer s tid today src dst amount sDesc dDesc =
      createTransaction (createTransaction s dst DEPOSIT amount today dDesc (some tid) APPROVED)
        src WITHDRAWAL amount today sDesc (some tid) APPROVED from rfl]
    rw [getBalance_createTransaction, getBalance_createTransaction]
    simp [WITHDRAWAL, DEPOSIT, Ne.symm h]
    ring
  · rw [show executeTransfer s tid today src dst amount sDesc dDesc =
      createTransaction (createTransaction s dst DEPOSIT amount today dDesc (some tid) APPROVED)
        src WITHDRAWAL amount today sDesc (some tid) APPROVED from rfl]
    rw [getBalance_createTransaction, getBalance_createTransaction]
    simp [DEPOSIT, h]

/-- Witness for C1 at a concrete transfer of 5 between accounts 1 and 2. -/
theorem executeTransfer_conservation_witness :
    executeTransfer ⟨[], [], []⟩ "ab12" d0 1 2 5 "to savings" "from chequing" =
      { accounts := [], txns :=
          [⟨2, DEPOSIT, 5, d0, "from chequing", some "ab12", APPROVED⟩,
           ⟨1, WITHDRAWAL, 5, d0, "to savings", some "ab12", APPROVED⟩],
        products := [] } ∧
    getBalance (executeTransfer ⟨[], [], []⟩ "ab12" d0 1 2 5 "to savings" "from chequing") 1 =
      getBalance ⟨[], [], []⟩ 1 - 5 ∧
    getBalance (executeTransfer ⟨[], [], []⟩ "ab12" d0 1 2 5 "to savings" "from chequing") 2 =
      getBalance ⟨[], [], []⟩ 2 + 5 ∧
    (executeTransfer ⟨[], [], []⟩ "ab12" d0 1 2 5 "to savings" "from chequing").accounts = [] := by
  have h := executeTransfer_conservation ⟨[], [], []⟩ "ab12" d0 1 2 5
    "to savings" "from chequing" (by decide)
  simpa using h

/-! ### C8: positivity of ledger amounts -/

/-- C8 counterexample: the ledger append `createTransaction` does not reject
a non-positive amount — a withdrawal of −5 is stored as given, and the
signed balance derivation then *raises* the account balance by 5, so the
stored sign, not only the type, carries direction. -/
theorem createTransaction_accepts_nonpositive :
    (createTransaction ⟨[], [], []⟩ 1 WITHDRAWAL (-5) d0 "manual entry" none PENDING).txns =
      [⟨1, WITHDRAWAL, -5, d0, "manual entry", none, PENDING⟩] ∧
    getBalance (createTransaction ⟨[], [], []⟩ 1 WITHDRAWAL (-5) d0 "manual entry" none PENDING) 1 =
      5 := by
  constructor
  · rfl
  · rw [getBalance_createTransaction]
    norm_num [getBalance, WITHDRAWAL, DEPOSIT]

/-- C8 amended: `createTransaction` itself appends whatever amount it is
given, with no validation; strict positivity is enforced one layer up, by
the route-level `validateAmount`, which errors exactly on `amount ≤ 0`. -/
theorem createTransaction_unchecked_validateAmount_guards (s : Bank)
    (accountId transactionTypeId : Nat) (amount : ℚ) (date : Date)
    (description : String) (transferId : Option String) (statusId : Nat) :
    (createTransaction s accountId transactionTypeId
        amount date description transferId statusId).txns =
      s.txns ++ [⟨accountId, transactionTypeId, amount, date, description,
        transferId, statusId⟩] ∧
    (∀ q, validateAmount amount = .ok q ↔ (0 < amount ∧ q = amount)) ∧
    (validateAmount amount = .error "Invalid amount" ↔ amount ≤ 0) := by
  refine ⟨rfl, ?_, ?_⟩
  · intro q
    unfold validateAmount
    split
    · rename_i hle
      constructor
      · intro hcon; cases hcon
      · rintro ⟨hpos, -⟩; exact absurd hle (not_le.mpr hpos)
    · rename_i hgt
      constructor
      · rintro ⟨⟩; exact ⟨not_le.mp hgt, rfl⟩
      · rintro ⟨-, rfl⟩; rfl
  · unfold validateAmount
    split
    · rename_i hle; simpa using hle
    · rename_i hgt
      constructor
      · intro hcon; cases hcon
      · intro hle; exact absurd hle hgt

/-! ### C2: balance derivation and the status filter -/

/-- C2 at the failing input: an account holding a single `APPROVED` deposit
of 100.  The total balance derives to 100 — deposits minus withdrawals —
but `getApprovedBalance`, whose own doc comment promises "approved balance
only (excludes pending transactions)", returns 0: its SQL filter keeps
`StatusName IN ('Active','Paid Off')`, names no transaction ever carries,
rather than `'Approved'`. -/
theorem getApprovedBalance_misses_approved_rows :
    (bankC2.txns.map (fun t => (t.statusId, statusName t.statusId))) =
      [(APPROVED, "Approved")] ∧
    getBalance bankC2 10 = 100 ∧
    getApprovedBalance bankC2 10 = 0 := by
  refine ⟨rfl, ?_, ?_⟩
  · norm_num [getBalance, bankC2, txnSign, DEPOSIT]
  · norm_num [getApprovedBalance, bankC2, txnSign, statusName, APPROVED,
      List.filter_cons, List.filter_nil]
    rw [if_neg (by decide)]
    simp

/-! ### C4: payoff detection -/

/-- C4 counterexample: a 12% loan of 1000, 100 days into its term, whose
ledger holds repayments of exactly the principal.  The spec's quantity
`principal + accruedInterestToYesterday − balance` is 2400/73 ≈ 32.88 —
far above any rounding tolerance, so the claim says the loan must stay
`Active` — yet `checkLoanPayoff` marks it `PAID_OFF`: the code compares
`balance ≥ principal` and never accrues interest. -/
theorem checkLoanPayoff_ignores_interest :
    (checkLoanPayoff 1 bankC4).2 = true ∧
    getAccount (checkLoanPayoff 1 bankC4).1 1 =
      some ⟨1, 7, LOAN, PAID_OFF, 1000, 12, 12, ⟨2024, 0, 10⟩, some "Monthly", "car"⟩ ∧
    getBalance bankC4 1 = 1000 ∧
    specPayoffAmount 1000 12 100 (getBalance bankC4 1) = 2400 / 73 ∧
    (1 : ℚ) < 2400 / 73 := by
  have hb : getBalance bankC4 1 = 1000 := by
    norm_num [getBalance, bankC4, txnSign, DEPOSIT, List.filter_cons, List.filter_nil]
  have hc : checkLoanPayoff 1 bankC4 = (updateAccountStatus bankC4 1 PAID_OFF, true) := by
    unfold checkLoanPayoff
    rw [show getLoan bankC4 1 =
      some ⟨1, 7, LOAN, ACTIVE, 1000, 12, 12, ⟨2024, 0, 10⟩, some "Monthly", "car"⟩ from rfl]
    simp [hb]
  refine ⟨by rw [hc], by rw [hc]; rfl, hb, ?_, by norm_num⟩
  rw [hb]
  norm_num [specPayoffAmount, calculateAccruedInterest, calculateSimpleInterest]

/-- C4 amended: on an `ACTIVE` loan, `checkLoanPayoff` transitions the loan
to `PAID_OFF` exactly when the loan account's derived balance has reached
its `PrincipalAmount` — no accrued-interest term and no tolerance — and
otherwise changes nothing. -/
theorem checkLoanPayoff_rule (loanId : Nat) (s : Bank) (loan : Account)
    (hl : getLoan s loanId = some loan) (ha : loan.statusId = ACTIVE) :
    checkLoanPayoff loanId s =
      if loan.principalAmount ≤ getBalance s loanId then
        (updateAccountStatus s loanId PAID_OFF, true)
      else (s, false) := by
  unfold checkLoanPayoff
  rw [hl]
  simp [ha]

/-- Witness for C4's amended rule on the concrete fully-repaid loan. -/
theorem checkLoanPayoff_rule_witness :
    checkLoanPayoff 1 bankC4 = (updateAccountStatus bankC4 1 PAID_OFF, true) := by
  rw [checkLoanPayoff_rule 1 bankC4
    ⟨1, 7, LOAN, ACTIVE, 1000, 12, 12, ⟨2024, 0, 10⟩, some "Monthly", "car"⟩ rfl rfl]
  have h : (1000 : ℚ) ≤ getBalance bankC4 1 := by
    norm_num [getBalance, bankC4, txnSign, DEPOSIT, List.filter_cons, List.filter_nil]
  rw [if_pos h]

/-! ### C5: interest due dates -/

/-- C5 counterexample: a `'Bi-weekly'` loan exactly 14 days past its start
date (2024-03-01 → 2024-03-15).  The claim says the period interest is
withdrawn; `processLoanInterest` has no bi-weekly branch at all and appends
nothing. -/
theorem processLoanInterest_skips_biweekly :
    ((⟨2024, 2, 15⟩ : Date).day = (⟨2024, 2, 1⟩ : Date).day + 14 ∧
      (⟨2024, 2, 15⟩ : Date).month = (⟨2024, 2, 1⟩ : Date).month ∧
      (⟨2024, 2, 15⟩ : Date).year = (⟨2024, 2, 1⟩ : Date).year) ∧
    (getLoan bankC5 1).map (fun l => (l.paymentFrequency, l.startDate)) =
      some (some "Bi-weekly", ⟨2024, 2, 1⟩) ∧
    processLoanInterest ⟨2024, 2, 15⟩ 1 bankC5 = .ok (bankC5, false) := by
  refine ⟨by decide, rfl, ?_⟩
  unfold processLoanInterest
  rw [show getLoan bankC5 1 =
    some ⟨1, 7, LOAN, ACTIVE, 1000, 12, 12, ⟨2024, 2, 1⟩, some "Bi-weekly", "bike"⟩ from rfl]
  simp

/-- C5 amended: for an `ACTIVE` loan whose owner has a chequing account,
`processLoanInterest` withdraws interest exactly when the stored frequency
is the string `'Monthly'` (same day-of-month, at least one month elapsed)
or the string `'Annual'` (anniversary day, a positive multiple of 12 months
elapsed), with the rounded period amount positive; every other frequency —
including `'Bi-weekly'`, `'Annually'` and `'At Maturity'` — never triggers
a withdrawal. -/
theorem processLoanInterest_rule (now : Date) (loanId : Nat) (s : Bank)
    (loan chq : Account) (hl : getLoan s loanId = some loan)
    (ha : loan.statusId = ACTIVE) (hc : chequingOf s loan.userId = some chq) :
    processLoanInterest now loanId s =
      if loan.paymentFrequency = some "Monthly" ∧ 0 < monthsElapsed now loan.startDate ∧
          now.day = loan.startDate.day ∧ 0 < monthlyInterestAmount loan then
        .ok (createSystemTransaction s now chq.accountId WITHDRAWAL
              (monthlyInterestAmount loan)
              (interestDescription "Monthly" loanId loan.interestRate), true)
      else if loan.paymentFrequency = some "Annual" ∧ 0 < monthsElapsed now loan.startDate ∧
          monthsElapsed now loan.startDate % 12 = 0 ∧ now.day = loan.startDate.day ∧
          0 < annualInterestAmount loan then
        .ok (createSystemTransaction s now chq.accountId WITHDRAWAL
              (annualInterestAmount loan)
              (interestDescription "Annual" loanId loan.interestRate), true)
      else .ok (s, false) := by
  have hMA : (some "Monthly" : Option String) ≠ some "Annual" := by decide
  unfold processLoanInterest
  rw [hl]
  simp only [ha, ne_eq, not_true_eq_false, if_false, ite_false, reduceIte]
  by_cases hm : loan.paymentFrequency = some "Monthly"
  · by_cases h1 : 0 < monthsElapsed now loan.startDate
    · by_cases h2 : now.day = loan.startDate.day
      · by_cases hamt : monthlyInterestAmount loan ≤ 0
        · simp [hm, h1, h2, hamt, not_lt.mpr hamt, hMA]
        · simp [hm, h1, h2, hamt, not_le.mp hamt, hc]
      · simp [hm, h1, h2, hMA]
    · simp [hm, h1, hMA]
  · by_cases hA : loan.paymentFrequency = some "Annual"
    · by_cases h1 : 0 < monthsElapsed now loan.startDate
      · by_cases h12 : monthsElapsed now loan.startDate % 12 = 0
        · by_cases h2 : now.day = loan.startDate.day
          · by_cases hamt : annualInterestAmount loan ≤ 0
            · simp [hm, hA, h1, h12, h2, hamt, not_lt.mpr hamt]
            · simp [hm, hA, h1, h12, h2, hamt, not_le.mp hamt, hc]
          · simp [hm, hA, h1, h12, h2]
        · simp [hm, hA, h1, h12]
      · simp [hm, hA, h1]
    · simp [hm, hA]

/-- Witness for C5's amended rule: a 12% monthly loan on its first
anniversary day withdraws 10.00 from chequing. -/
theorem processLoanInterest_rule_witness :
    processLoanInterest ⟨2024, 1, 15⟩ 1 bankC5m =
      .ok (createSystemTransaction bankC5m ⟨2024, 1, 15⟩ 2 WITHDRAWAL
            (monthlyInterestAmount
              ⟨1, 7, LOAN, ACTIVE, 1000, 12, 12, ⟨2024, 0, 15⟩, some "Monthly", "bike"⟩)
            (interestDescription "Monthly" 1 12), true) := by
  rw [processLoanInterest_rule ⟨2024, 1, 15⟩ 1 bankC5m
    ⟨1, 7, LOAN, ACTIVE, 1000, 12, 12, ⟨2024, 0, 15⟩, some "Monthly", "bike"⟩
    ⟨2, 7, CHEQUING, ACTIVE, 0, 0, 0, ⟨2024, 0, 1⟩, none, ""⟩ rfl rfl rfl]
  rw [if_pos]
  refine ⟨rfl, by decide, rfl, ?_⟩
  norm_num [monthlyInterestAmount, round2, jsRound]

/-! ### C6: GIC maturity payout -/

/-- C6: maturing an `ACTIVE` GIC that has reached its maturity date deposits
exactly `P × (1 + r/12/100) ^ (12 × t/12)` — the integer exponent `t` —
rounded to 2 decimal places, into the owner's chequing account, and closes
the GIC, as one unit. -/
theorem matureGIC_payout (today : Date) (gicId : Nat) (s : Bank) (gic chq : Account)
    (hg : getGIC s gicId = some gic) (ha : gic.statusId = ACTIVE)
    (hmat : hasReachedMaturity today gic.startDate gic.term = true)
    (hc : chequingOf s gic.userId = some chq) :
    round2 (calculateGICMaturityValue gic.principalAmount gic.interestRate gic.term) =
      round2 (gic.principalAmount * (1 + gic.interestRate / 12 / 100) ^ gic.term) ∧
    matureGIC today gicId s =
      .ok (updateAccountStatus
            (createSystemTransaction s today chq.accountId DEPOSIT
              (round2 (gic.principalAmount * (1 + gic.interestRate / 12 / 100) ^ gic.term))
              (gicMaturityDescription (gicProductName s gic) gic.principalAmount
                (round2 (gic.principalAmount * (1 + gic.interestRate / 12 / 100) ^ gic.term))))
            gicId CLOSED, true) := by
  have key : calculateGICMaturityValue gic.principalAmount gic.interestRate gic.term =
      gic.principalAmount * (1 + gic.interestRate / 12 / 100) ^ gic.term := by
    unfold calculateGICMaturityValue calculateCompoundInterest
    ring
  refine ⟨by rw [key], ?_⟩
  unfold matureGIC
  rw [hg]
  simp [ha, hmat, hc, key]

/-- Witness for C6: a 12%, 1-month GIC of 1000 matures to a deposit of
exactly 1010.00. -/
theorem matureGIC_payout_witness :
    matureGIC ⟨2024, 1, 20⟩ 3 bankC6 =
      .ok (updateAccountStatus
            (createSystemTransaction bankC6 ⟨2024, 1, 20⟩ 2 DEPOSIT 1010
              (gicMaturityDescription "Investment" 1000 1010)) 3 CLOSED, true) := by
  have hval : round2 ((1000 : ℚ) * (1 + 12 / 12 / 100) ^ (1 : Nat)) = 1010 := by
    norm_num [round2, jsRound]
  have h := matureGIC_payout ⟨2024, 1, 20⟩ 3 bankC6
    ⟨3, 7, INVESTMENT, ACTIVE, 1000, 12, 1, ⟨2024, 0, 10⟩, none, "1"⟩
    ⟨2, 7, CHEQUING, ACTIVE, 0, 0, 0, ⟨2024, 0, 1⟩, none, ""⟩
    rfl rfl (by decide) rfl
  rw [h.2]
  dsimp only
  rw [hval]
  rfl

/-! ### C7: GIC purchase validation and atomicity -/

/-- C7: `purchaseGIC` raises a validation error when the amount is under the
product minimum, and — past that check — an insufficient-funds error when
the amount exceeds the chequing account's available balance as computed by
`getApprovedBalance`; every rejection produces no state (no ledger entry, no
account); a successful purchase appends the `Investment` account with the
product's rate and term snapshotted together with the chequing withdrawal,
as one unit. -/
theorem purchaseGIC_checks_and_atomicity (today : Date)
    (userId chequingAccountId productId : Nat) (amount : ℚ) (s : Bank)
    (product : GICProduct) (hp : getGICProduct s productId = some product) :
    (amount < product.minimumAmount →
      purchaseGIC today userId chequingAccountId productId amount s =
        .error "Minimum investment amount") ∧
    (product.minimumAmount ≤ amount →
      getApprovedBalance s chequingAccountId < amount →
      purchaseGIC today userId chequingAccountId productId amount s =
        .error "Insufficient funds for this investment") ∧
    (product.minimumAmount ≤ amount →
      amount ≤ getApprovedBalance s chequingAccountId →
      purchaseGIC today userId chequingAccountId productId amount s =
        .ok ({ s with
            accounts := s.accounts ++
              [{ accountId := nextAccountId s, userId := userId,
                 accountTypeId := INVESTMENT, statusId := ACTIVE,
                 principalAmount := amount, interestRate := product.interestRate,
                 term := product.term, startDate := today,
                 paymentFrequency := none, description := toString productId }],
            txns := s.txns ++
              [⟨chequingAccountId, WITHDRAWAL, amount, today,
                "GIC Investment - " ++ product.productName, none, APPROVED⟩] },
          nextAccountId s)) := by
  unfold purchaseGIC
  rw [hp]
  dsimp only
  refine ⟨fun h => by rw [if_pos h], fun hmin hbal => ?_, fun hmin hbal => ?_⟩
  · rw [if_neg (not_lt.mpr hmin)]
    rw [if_pos hbal]
  · rw [if_neg (not_lt.mpr hmin)]
    rw [if_neg (not_lt.mpr hbal)]
    rfl

/-- Witness for C7: the spec's scenario — a 500 purchase against a product
with a 1000 minimum is rejected with the validation error. -/
theorem purchaseGIC_checks_witness :
    purchaseGIC d0 7 10 1 500 bankC7 = .error "Minimum investment amount" :=
  (purchaseGIC_checks_and_atomicity d0 7 10 1 500 bankC7
    ⟨1, "Secure Growth", 5, 12, 1000⟩ rfl).1 (by norm_num)

/-! ### C3: disbursement idempotency -/

/-- A description written by `createSystemTransaction` starts with
`"[SYSTEM] "`, so the bare `'Loan disbursement - Loan #1%'` pattern can
never match it. -/
theorem likeStart_system_entry (x : String) :
    likeStart ("[SYSTEM] " ++ x) (disbursePattern 1) = false := by
  obtain ⟨xs⟩ := x
  rfl

/-- C3 at the failing input: an active loan of 1000 past its start date,
disbursed twice.  Both calls report success and both append a deposit of the
full principal to chequing: the dedup query looks for descriptions starting
with `'Loan disbursement - Loan #1'`, but the entry it itself wrote starts
with `'[SYSTEM] '`, so the check never fires and every daily run re-deposits
the principal. -/
theorem disburseLoan_redisburses :
    ∃ s1 s2 : Bank,
      disburseLoan d0 1 bankC3 = .ok (s1, true) ∧
      disburseLoan d0 1 s1 = .ok (s2, true) ∧
      s2.txns.map (fun t => (t.accountId, t.transactionTypeId, t.amount)) =
        [(2, DEPOSIT, 1000), (2, DEPOSIT, 1000)] := by
  have step1 : disburseLoan d0 1 bankC3 =
      .ok (createSystemTransaction bankC3 d0 2 DEPOSIT 1000
        (disbursementDescription 1 1000 5), true) := by
    unfold disburseLoan
    rw [show getLoan bankC3 1 =
      some ⟨1, 7, LOAN, ACTIVE, 1000, 5, 12, ⟨2024, 0, 10⟩, some "Monthly", "car"⟩ from rfl]
    dsimp only
    rw [show chequingOf bankC3 7 =
      some ⟨2, 7, CHEQUING, ACTIVE, 0, 0, 0, ⟨2024, 0, 1⟩, none, ""⟩ from rfl]
    dsimp only
    norm_num [Date.ltB, Date.key, d0, bankC3]
  have step2 : disburseLoan d0 1
      (createSystemTransaction bankC3 d0 2 DEPOSIT 1000 (disbursementDescription 1 1000 5)) =
      .ok (createSystemTransaction
        (createSystemTransaction bankC3 d0 2 DEPOSIT 1000 (disbursementDescription 1 1000 5))
        d0 2 DEPOSIT 1000 (disbursementDescription 1 1000 5), true) := by
    unfold disburseLoan
    rw [show getLoan
      (createSystemTransaction bankC3 d0 2 DEPOSIT 1000 (disbursementDescription 1 1000 5)) 1 =
      some ⟨1, 7, LOAN, ACTIVE, 1000, 5, 12, ⟨2024, 0, 10⟩, some "Monthly", "car"⟩ from rfl]
    dsimp only
    rw [show chequingOf
      (createSystemTransaction bankC3 d0 2 DEPOSIT 1000 (disbursementDescription 1 1000 5)) 7 =
      some ⟨2, 7, CHEQUING, ACTIVE, 0, 0, 0, ⟨2024, 0, 1⟩, none, ""⟩ from rfl]
    dsimp only
    norm_num [Date.ltB, Date.key, d0, createSystemTransaction, createTransaction, bankC3,
      likeStart_system_entry]
  exact ⟨_, _, step1, step2, rfl⟩

/-! ### C10: prefix-based dedup detection -/

/-- C10 counterexample: user 7 owns loans 1 and 12, and the system-written
disbursement of loan 12 already sits on the chequing account.  The claim
says `disburseLoan 1` is suppressed by the shared decimal prefix; in fact it
returns `true` and deposits loan 1's principal, because the stored entry
starts with `'[SYSTEM] '` and the bare-prefix pattern never matches it. -/
theorem disburseLoan_not_suppressed_on_system_entries :
    ∃ s1 : Bank,
      disburseLoan d0 1 bankC10a = .ok (s1, true) ∧
      s1.txns.length = bankC10a.txns.length + 1 := by
  have step : disburseLoan d0 1 bankC10a =
      .ok (createSystemTransaction bankC10a d0 2 DEPOSIT 1000
        (disbursementDescription 1 1000 5), true) := by
    unfold disburseLoan
    rw [show getLoan bankC10a 1 =
      some ⟨1, 7, LOAN, ACTIVE, 1000, 5, 12, ⟨2024, 0, 10⟩, some "Monthly", "car"⟩ from rfl]
    dsimp only
    rw [show chequingOf bankC10a 7 =
      some ⟨2, 7, CHEQUING, ACTIVE, 0, 0, 0, ⟨2024, 0, 1⟩, none, ""⟩ from rfl]
    dsimp only
    norm_num [Date.ltB, Date.key, d0, bankC10a]
    decide
  exact ⟨_, step, rfl⟩

/-- C10 amended: the dedup check compares the bare pattern
`'Loan disbursement - Loan #<loanId>'` against the start of stored
descriptions.  On a chequing transaction that does carry such a bare
description for loan 12, `disburseLoan` on the distinct loan 1 is suppressed
— it returns `false` and appends nothing — because loan 12's description
starts with loan 1's pattern. -/
theorem disburseLoan_suppressed_by_bare_prefix :
    bankC10b.txns.map (fun t => t.description) =
      ["Loan disbursement - Loan #12 ($500.00 at 5% APR)"] ∧
    likeStart "Loan disbursement - Loan #12 ($500.00 at 5% APR)" (disbursePattern 1) = true ∧
    disburseLoan d0 1 bankC10b = .ok (bankC10b, false) := by
  refine ⟨rfl, rfl, ?_⟩
  unfold disburseLoan
  rw [show getLoan bankC10b 1 =
    some ⟨1, 7, LOAN, ACTIVE, 1000, 5, 12, ⟨2024, 0, 10⟩, some "Monthly", "car"⟩ from rfl]
  dsimp only
  rw [show chequingOf bankC10b 7 =
    some ⟨2, 7, CHEQUING, ACTIVE, 0, 0, 0, ⟨2024, 0, 1⟩, none, ""⟩ from rfl]
  dsimp only
  norm_num [Date.ltB, Date.key, d0, bankC10b]
  decide

/-! ### C9: scheduler lemmas — accounts preservation -/

theorem runPass_cons (op : Nat → Bank → Except String (Bank × Bool)) (i : Nat)
    (l : List Nat) (s : Bank) :
    runPass op (i :: l) s = runPass op l (catchStep op s i) := rfl

theorem disburseLoan_ok_accounts (today : Date) (id : Nat) (s : Bank) :
    ∀ r, disburseLoan today id s = .ok r → r.1.accounts = s.accounts := by
  unfold disburseLoan
  repeat' split
  all_goals (intro r hr; cases hr <;> rfl)

theorem catchStep_disburse_accounts (today : Date) (s : Bank) (id : Nat) :
    (catchStep (disburseLoan today) s id).accounts = s.accounts := by
  unfold catchStep
  cases hr : disburseLoan today id s with
  | error e => rfl
  | ok r =>
    obtain ⟨s1, b⟩ := r
    exact disburseLoan_ok_accounts today id s (s1, b) hr

theorem processLoanInterest_ok_accounts (today : Date) (id : Nat) (s : Bank) :
    ∀ r, processLoanInterest today id s = .ok r → r.1.accounts = s.accounts := by
  unfold processLoanInterest
  split
  · intro r hr; cases hr <;> rfl
  · rename_i loan hgl
    split
    · intro r hr; cases hr <;> rfl
    · dsimp only
      by_cases hm : loan.paymentFrequency = some "Monthly"
      · rw [if_pos hm]
        by_cases hd : 0 < monthsElapsed today loan.startDate ∧ today.day = loan.startDate.day
        · rw [if_pos hd]
          dsimp only
          split
          · intro r hr; cases hr <;> rfl
          · split
            · intro r hr; cases hr <;> rfl
            · intro r hr; cases hr <;> rfl
        · rw [if_neg hd]
          intro r hr; cases hr <;> rfl
      · rw [if_neg hm]
        by_cases hA : loan.paymentFrequency = some "Annual"
        · rw [if_pos hA]
          by_cases hd : 0 < monthsElapsed today loan.startDate ∧
              monthsElapsed today loan.startDate % 12 = 0 ∧ today.day = loan.startDate.day
          · rw [if_pos hd]
            dsimp only
            split
            · intro r hr; cases hr <;> rfl
            · split
              · intro r hr; cases hr <;> rfl
              · intro r hr; cases hr <;> rfl
          · rw [if_neg hd]
            intro r hr; cases hr <;> rfl
        · rw [if_neg hA]
          intro r hr; cases hr <;> rfl

theorem catchStep_interest_accounts (today : Date) (s : Bank) (id : Nat) :
    (catchStep (processLoanInterest today) s id).accounts = s.accounts := by
  unfold catchStep
  cases hr : processLoanInterest today id s with
  | error e => rfl
  | ok r =>
    obtain ⟨s1, b⟩ := r
    exact processLoanInterest_ok_accounts today id s (s1, b) hr

theorem runPass_accounts (op : Nat → Bank → Except String (Bank × Bool))
    (hop : ∀ s id, (catchStep op s id).accounts = s.accounts) :
    ∀ (ids : List Nat) (s : Bank), (runPass op ids s).accounts = s.accounts := by
  intro ids
  induction ids with
  | nil => intro s; rfl
  | cons i l ih =>
    intro s
    rw [runPass_cons, ih, hop]

theorem activeLoanIds_congr (s1 s2 : Bank) (h : s1.accounts = s2.accounts) :
    activeLoanIds s1 = activeLoanIds s2 := by
  unfold activeLoanIds
  rw [h]

theorem activeGicIds_congr (s1 s2 : Bank) (h : s1.accounts = s2.accounts) :
    activeGicIds s1 = activeGicIds s2 := by
  unfold activeGicIds
  rw [h]

theorem getLoan_congr (s1 s2 : Bank) (h : s1.accounts = s2.accounts) (id : Nat) :
    getLoan s1 id = getLoan s2 id := by
  unfold getLoan
  rw [h]

theorem chequingOf_congr (s1 s2 : Bank) (h : s1.accounts = s2.accounts) (u : Nat) :
    chequingOf s1 u = chequingOf s2 u := by
  unfold chequingOf
  rw [h]

theorem loanIsActive_congr (s1 s2 : Bank) (h : s1.accounts = s2.accounts) (id : Nat) :
    loanIsActive s1 id = loanIsActive s2 id := by
  unfold loanIsActive
  rw [getLoan_congr s1 s2 h]

/-! ### C9: scheduler lemmas — the shadow relation -/

theorem AccountShadow.rfl (a : Account) : AccountShadow a a :=
  ⟨Eq.refl a, fun _ => Eq.refl _, fun h => absurd (Eq.refl _) h⟩

theorem AccountShadow.accountId_eq {a b : Account} (h : AccountShadow a b) :
    b.accountId = a.accountId := by rw [← h.1]

theorem AccountShadow.accountTypeId_eq {a b : Account} (h : AccountShadow a b) :
    b.accountTypeId = a.accountTypeId := by rw [← h.1]

theorem AccountShadow.eq_of_active {a b : Account} (h : AccountShadow a b)
    (hb : b.statusId = ACTIVE) : b = a := by
  have hs := h.2.1 hb
  rw [← h.1, ← hs]

theorem shadowRel_rfl (s : Bank) : ShadowRel s s :=
  List.forall₂_same.mpr (fun a _ => AccountShadow.rfl a)

theorem forall₂_shadow_map_accountId {l0 l : List Account}
    (h : List.Forall₂ AccountShadow l0 l) :
    l.map (fun a => a.accountId) = l0.map (fun a => a.accountId) := by
  induction h with
  | nil => rfl
  | cons hab _ ih => simp [ih, AccountShadow.accountId_eq hab]

theorem shadowRel_of_accounts_eq {s0 s s' : Bank} (hrel : ShadowRel s0 s)
    (h : s'.accounts = s.accounts) : ShadowRel s0 s' := by
  unfold ShadowRel at *
  rw [h]
  exact hrel

theorem nodup_ids_of_shadowRel {s0 s : Bank} (hrel : ShadowRel s0 s)
    (hnd : (s0.accounts.map (fun a => a.accountId)).Nodup) :
    (s.accounts.map (fun a => a.accountId)).Nodup := by
  rw [forall₂_shadow_map_accountId hrel]
  exact hnd

theorem forall₂_shadow_update (id st : Nat) (hst : st ≠ ACTIVE) :
    ∀ {l0 l : List Account}, List.Forall₂ AccountShadow l0 l →
      (∀ b ∈ l, b.accountId = id → b.accountTypeId = LOAN) →
      List.Forall₂ AccountShadow l0
        (l.map (fun a => if a.accountId == id then { a with statusId := st } else a)) := by
  intro l0 l h
  induction h with
  | nil => intro _; exact List.Forall₂.nil
  | @cons a b l0' l' hab htail ih =>
    intro hloan
    simp only [List.map_cons]
    refine List.Forall₂.cons ?_ (ih (fun x hx hxid => hloan x (List.mem_cons_of_mem _ hx) hxid))
    by_cases hb : b.accountId = id
    · have hbl : b.accountTypeId = LOAN := hloan b (List.mem_cons_self _ _) hb
      rw [if_pos (by simpa using hb)]
      refine ⟨hab.1, fun hactive => absurd hactive hst, fun _ => ?_⟩
      rw [← AccountShadow.accountTypeId_eq hab]
      exact hbl
    · rw [if_neg (by simpa using hb)]
      exact hab

theorem shadowRel_update {s0 s : Bank} (id st : Nat) (hst : st ≠ ACTIVE)
    (hrel : ShadowRel s0 s)
    (hloan : ∀ b ∈ s.accounts, b.accountId = id → b.accountTypeId = LOAN) :
    ShadowRel s0 (updateAccountStatus s id st) :=
  forall₂_shadow_update id st hst hrel hloan

theorem all_rows_loan_of_getLoan {s : Bank} {id : Nat} {loan : Account}
    (hnd : (s.accounts.map (fun a => a.accountId)).Nodup)
    (hg : getLoan s id = some loan) :
    ∀ b ∈ s.accounts, b.accountId = id → b.accountTypeId = LOAN := by
  intro b hb hbid
  have hmem := List.mem_of_find?_eq_some hg
  have hp := List.find?_some hg
  simp only [Bool.and_eq_true, beq_iff_eq] at hp
  have hbeq : b = loan :=
    List.inj_on_of_nodup_map hnd hb hmem
      (show b.accountId = loan.accountId by rw [hbid, hp.1])
  rw [hbeq]
  exact hp.2

theorem shadowRel_catchStep_payoff {s0 : Bank} (s : Bank) (id : Nat)
    (hrel : ShadowRel s0 s)
    (hnd : (s0.accounts.map (fun a => a.accountId)).Nodup) :
    ShadowRel s0 (catchStep payoffOp s id) := by
  unfold catchStep payoffOp checkLoanPayoff
  cases hg : getLoan s id with
  | none => exact hrel
  | some loan =>
    dsimp only
    by_cases hst : loan.statusId ≠ ACTIVE
    · rw [if_pos hst]; exact hrel
    · rw [if_neg hst]
      by_cases hbal : loan.principalAmount ≤ getBalance s id
      · rw [if_pos hbal]
        exact shadowRel_update id PAID_OFF (by decide) hrel
          (all_rows_loan_of_getLoan (nodup_ids_of_shadowRel hrel hnd) hg)
      · rw [if_neg hbal]; exact hrel

theorem shadowRel_catchStep_maturity {s0 : Bank} (today : Date) (s : Bank) (id : Nat)
    (hrel : ShadowRel s0 s)
    (hnd : (s0.accounts.map (fun a => a.accountId)).Nodup) :
    ShadowRel s0 (catchStep (checkLoanMaturity today) s id) := by
  unfold catchStep checkLoanMaturity
  cases hg : getLoan s id with
  | none => exact hrel
  | some loan =>
    dsimp only
    by_cases hst : loan.statusId ≠ ACTIVE
    · rw [if_pos hst]; exact hrel
    · rw [if_neg hst]
      by_cases hmat : hasReachedMaturity today loan.startDate loan.term = true
      · rw [if_neg (not_not_intro hmat)]
        cases hc : chequingOf s loan.userId with
        | none => exact hrel
        | some chq =>
          dsimp only
          by_cases hrem : 0 < round2 (loan.principalAmount - getBalance s id)
          · rw [if_pos hrem]
            refine shadowRel_update id CLOSED (by decide)
              (shadowRel_of_accounts_eq hrel (Eq.refl _)) ?_
            exact all_rows_loan_of_getLoan (nodup_ids_of_shadowRel hrel hnd) hg
          · rw [if_neg hrem]
            exact shadowRel_update id CLOSED (by decide) hrel
              (all_rows_loan_of_getLoan (nodup_ids_of_shadowRel hrel hnd) hg)
      · rw [if_pos hmat]; exact hrel

theorem shadowRel_runPass (op : Nat → Bank → Except String (Bank × Bool))
    (hop : ∀ (s0 s : Bank) (id : Nat), ShadowRel s0 s →
      (s0.accounts.map (fun a => a.accountId)).Nodup → ShadowRel s0 (catchStep op s id)) :
    ∀ (l : List Nat) (s0 s : Bank), ShadowRel s0 s →
      (s0.accounts.map (fun a => a.accountId)).Nodup → ShadowRel s0 (runPass op l s) := by
  intro l
  induction l with
  | nil => intro s0 s h _; exact h
  | cons i l ih =>
    intro s0 s h hnd
    rw [runPass_cons]
    exact ih s0 _ (hop s0 s i h hnd) hnd

/-! ### C9: scheduler lemmas — skipping non-active loans -/

theorem find?_map_pred (g : Account → Account) (p : Account → Bool)
    (hpg : ∀ x, p (g x) = p x) :
    ∀ l : List Account, (l.map g).find? p = (l.find? p).map g := by
  intro l
  induction l with
  | nil => rfl
  | cons a l ih =>
    by_cases hp : p a = true
    · simp [List.find?_cons, hpg a, hp]
    · have hpf : p a = false := by simpa using hp
      simp [List.find?_cons, hpg a, hpf, ih]

theorem getLoan_update (s : Bank) (j st id : Nat) :
    getLoan (updateAccountStatus s j st) id =
      (getLoan s id).map
        (fun a => if a.accountId == j then { a with statusId := st } else a) := by
  unfold getLoan updateAccountStatus
  dsimp only
  exact find?_map_pred _ _
    (fun x => by by_cases h : x.accountId == j <;> simp [h]) s.accounts

theorem loanIsActive_update_false (s : Bank) (j st : Nat) (hst : st ≠ ACTIVE) (id : Nat)
    (h : ¬ loanIsActive s id = true) :
    ¬ loanIsActive (updateAccountStatus s j st) id = true := by
  unfold loanIsActive at *
  rw [getLoan_update]
  cases hg : getLoan s id with
  | none => simp
  | some loan =>
    rw [hg] at h
    simp only [Option.map_some']
    by_cases hj : loan.accountId == j
    · rw [if_pos hj]
      simp [hst]
    · rw [if_neg hj]
      exact h

theorem catchStep_maturity_cases (today : Date) (t : Bank) (j : Nat) :
    catchStep (checkLoanMaturity today) t j = t ∨
      ∃ t' : Bank, t'.accounts = t.accounts ∧
        catchStep (checkLoanMaturity today) t j = updateAccountStatus t' j CLOSED := by
  unfold catchStep checkLoanMaturity
  cases hg : getLoan t j with
  | none => exact Or.inl rfl
  | some loan =>
    dsimp only
    by_cases hst : loan.statusId ≠ ACTIVE
    · rw [if_pos hst]; exact Or.inl rfl
    · rw [if_neg hst]
      by_cases hmat : hasReachedMaturity today loan.startDate loan.term = true
      · rw [if_neg (not_not_intro hmat)]
        cases hc : chequingOf t loan.userId with
        | none => exact Or.inl rfl
        | some chq =>
          dsimp only
          by_cases hrem : 0 < round2 (loan.principalAmount - getBalance t j)
          · rw [if_pos hrem]
            exact Or.inr ⟨createSystemTransaction t today chq.accountId WITHDRAWAL
              (round2 (loan.principalAmount - getBalance t j))
              (loanMaturityDescription j (round2 (loan.principalAmount - getBalance t j))),
              rfl, rfl⟩
          · rw [if_neg hrem]
            exact Or.inr ⟨t, rfl, rfl⟩
      · rw [if_pos hmat]; exact Or.inl rfl

theorem catchStep_maturity_inactive (today : Date) (t : Bank) (id : Nat)
    (h : ¬ loanIsActive t id = true) :
    catchStep (checkLoanMaturity today) t id = t := by
  unfold catchStep checkLoanMaturity
  unfold loanIsActive at h
  cases hg : getLoan t id with
  | none => rfl
  | some loan =>
    rw [hg] at h
    dsimp only
    have hst : loan.statusId ≠ ACTIVE := by simpa using h
    rw [if_pos hst]

theorem loanIsActive_catchStep_maturity (today : Date) (t : Bank) (j id : Nat)
    (h : ¬ loanIsActive t id = true) :
    ¬ loanIsActive (catchStep (checkLoanMaturity today) t j) id = true := by
  rcases catchStep_maturity_cases today t j with heq | ⟨t', hacc, heq⟩
  · rw [heq]; exact h
  · rw [heq]
    apply loanIsActive_update_false t' j CLOSED (by decide) id
    rw [loanIsActive_congr t' t hacc id]
    exact h

theorem runPass_filter_skip (op : Nat → Bank → Except String (Bank × Bool))
    (Active : Bank → Nat → Prop)
    (hi : ∀ t id, ¬ Active t id → catchStep op t id = t)
    (hii : ∀ t j id, ¬ Active t id → ¬ Active (catchStep op t j) id)
    (l : List Nat) (p : Nat → Bool) :
    ∀ t : Bank, (∀ id ∈ l, p id = false → ¬ Active t id) →
      runPass op (l.filter p) t = runPass op l t := by
  induction l with
  | nil => intro t _; rfl
  | cons i l ih =>
    intro t hdrop
    by_cases hp : p i = true
    · rw [List.filter_cons_of_pos hp, runPass_cons, runPass_cons]
      exact ih (catchStep op t i)
        (fun id hm hpf => hii t i id (hdrop id (List.mem_cons_of_mem _ hm) hpf))
    · have hpf : p i = false := by simpa using hp
      rw [List.filter_cons_of_neg (by simpa using hp), runPass_cons,
        hi t i (hdrop i (List.mem_cons_self _ _) hpf)]
      exact ih t (fun id hm h' => hdrop id (List.mem_cons_of_mem _ hm) h')

/-! ### C9: scheduler lemmas — relating per-pass queries to the run snapshot -/

theorem forall₂_filter_map_eq (f : Nat → Bool) :
    ∀ {l0 l : List Account},
      List.Forall₂ (fun a b => AccountShadow a b ∧
        (a.accountTypeId = LOAN → f a.accountId = (b.statusId == ACTIVE))) l0 l →
      ((l0.filter (fun x => x.accountTypeId == LOAN && x.statusId == ACTIVE)).map
          (fun a => a.accountId)).filter f =
        (l.filter (fun x => x.accountTypeId == LOAN && x.statusId == ACTIVE)).map
          (fun a => a.accountId) := by
  intro l0 l h
  induction h with
  | nil => rfl
  | @cons a b l0' l' hab htail ih =>
    obtain ⟨hsh, hf⟩ := hab
    have htype : b.accountTypeId = a.accountTypeId := AccountShadow.accountTypeId_eq hsh
    by_cases hL : a.accountTypeId = LOAN
    · by_cases hA : a.statusId = ACTIVE
      · have h0 : (a.accountTypeId == LOAN && a.statusId == ACTIVE) = true := by
          simp [hL, hA]
        by_cases hbA : b.statusId = ACTIVE
        · have hfb : f a.accountId = true := by rw [hf hL]; simp [hbA]
          have hb0 : (b.accountTypeId == LOAN && b.statusId == ACTIVE) = true := by
            simp [htype, hL, hbA]
          simp [List.filter_cons, h0, hb0, hfb, AccountShadow.accountId_eq hsh, ih]
        · have hfb : f a.accountId = false := by rw [hf hL]; simp [hbA]
          have hb0 : (b.accountTypeId == LOAN && b.statusId == ACTIVE) = false := by
            simp [hbA]
          simp [List.filter_cons, h0, hb0, hfb, ih]
      · have h0 : (a.accountTypeId == LOAN && a.statusId == ACTIVE) = false := by
          simp [hA]
        have hbA : b.statusId ≠ ACTIVE := by
          intro hb
          exact hA (AccountShadow.eq_of_active hsh hb ▸ hb)
        have hb0 : (b.accountTypeId == LOAN && b.statusId == ACTIVE) = false := by
          simp [hbA]
        simp [List.filter_cons, h0, hb0, ih]
    · have h0 : (a.accountTypeId == LOAN && a.statusId == ACTIVE) = false := by
        simp [hL]
      have hb0 : (b.accountTypeId == LOAN && b.statusId == ACTIVE) = false := by
        simp [htype, hL]
      simp [List.filter_cons, h0, hb0, ih]

theorem forall₂_shadow_getLoan_aux (s : Bank) :
    ∀ (l0 l pre : List Account),
      List.Forall₂ AccountShadow l0 l →
      s.accounts = pre ++ l →
      (∀ x ∈ pre, ∀ a ∈ l0, x.accountId ≠ a.accountId) →
      (l0.map (fun a => a.accountId)).Nodup →
      List.Forall₂ (fun a b => AccountShadow a b ∧
        (a.accountTypeId = LOAN → loanIsActive s a.accountId = (b.statusId == ACTIVE)))
        l0 l := by
  intro l0 l pre h
  induction h generalizing pre with
  | nil => intro _ _ _; exact List.Forall₂.nil
  | @cons a b l0' l' hab htail ih =>
    intro hsacc hdis hnd
    refine List.Forall₂.cons ⟨hab, fun hL => ?_⟩ ?_
    · have hpre : pre.find?
          (fun x => x.accountId == a.accountId && x.accountTypeId == LOAN) = none := by
        apply List.find?_eq_none.mpr
        intro x hx
        simp only [Bool.and_eq_true, beq_iff_eq, not_and]
        intro hxid
        exact absurd hxid (hdis x hx a (List.mem_cons_self _ _))
      have hpb : (b.accountId == a.accountId && b.accountTypeId == LOAN) = true := by
        simp [AccountShadow.accountId_eq hab, AccountShadow.accountTypeId_eq hab, hL]
      have hfind : getLoan s a.accountId = some b := by
        unfold getLoan
        rw [hsacc, List.find?_append, hpre]
        simp [List.find?_cons, hpb]
      unfold loanIsActive
      rw [hfind]
    · apply ih (pre ++ [b])
      · rw [hsacc]
        simp
      · intro x hx a' ha'
        rcases List.mem_append.mp hx with hx | hx
        · exact hdis x hx a' (List.mem_cons_of_mem _ ha')
        · have hxb : x = b := by simpa using hx
          rw [hxb, AccountShadow.accountId_eq hab]
          intro hcon
          refine (List.nodup_cons.mp hnd).1 ?_
          show a.accountId ∈ List.map (fun x => x.accountId) l0'
          rw [hcon]
          exact List.mem_map_of_mem _ ha'
      · exact (List.nodup_cons.mp hnd).2

theorem shadowRel_forall₂_getLoan {s0 s : Bank} (hrel : ShadowRel s0 s)
    (hnd : (s0.accounts.map (fun a => a.accountId)).Nodup) :
    List.Forall₂ (fun a b => AccountShadow a b ∧
      (a.accountTypeId = LOAN → loanIsActive s a.accountId = (b.statusId == ACTIVE)))
      s0.accounts s.accounts :=
  forall₂_shadow_getLoan_aux s s0.accounts s.accounts [] hrel rfl
    (fun x hx => absurd hx (List.not_mem_nil x)) hnd

theorem maturityPass_snapshot (today : Date) (s0 s3 : Bank) (hrel : ShadowRel s0 s3)
    (hnd : (s0.accounts.map (fun a => a.accountId)).Nodup) :
    runPass (checkLoanMaturity today) (activeLoanIds s0) s3 =
      runPass (checkLoanMaturity today) (activeLoanIds s3) s3 := by
  have hQ := shadowRel_forall₂_getLoan hrel hnd
  have hfil := forall₂_filter_map_eq (fun id => loanIsActive s3 id) hQ
  have hskip := runPass_filter_skip (checkLoanMaturity today)
    (fun t id => loanIsActive t id = true)
    (catchStep_maturity_inactive today)
    (loanIsActive_catchStep_maturity today)
    (activeLoanIds s0) (fun id => loanIsActive s3 id) s3
    (fun id _ hf => by simp [hf])
  rw [← hskip]
  unfold activeLoanIds
  exact congrArg (fun l => runPass (checkLoanMaturity today) l s3) hfil

theorem forall₂_shadow_gic {l0 l : List Account}
    (h : List.Forall₂ AccountShadow l0 l) :
    (l.filter (fun a => a.accountTypeId == INVESTMENT && a.statusId == ACTIVE)).map
        (fun a => a.accountId) =
      (l0.filter (fun a => a.accountTypeId == INVESTMENT && a.statusId == ACTIVE)).map
        (fun a => a.accountId) := by
  induction h with
  | nil => rfl
  | @cons a b l0' l' hab htail ih =>
    have htype : b.accountTypeId = a.accountTypeId := AccountShadow.accountTypeId_eq hab
    by_cases hI : a.accountTypeId = INVESTMENT
    · have hsame : b.statusId = a.statusId := by
        by_contra hne
        have hl : a.accountTypeId = LOAN := hab.2.2 hne
        rw [hI] at hl
        exact absurd hl (by decide)
      by_cases hA : a.statusId = ACTIVE
      · have h0 : (a.accountTypeId == INVESTMENT && a.statusId == ACTIVE) = true := by
          simp [hI, hA]
        have hb0 : (b.accountTypeId == INVESTMENT && b.statusId == ACTIVE) = true := by
          simp [htype, hI, hsame, hA]
        simp [List.filter_cons, h0, hb0, AccountShadow.accountId_eq hab, ih]
      · have h0 : (a.accountTypeId == INVESTMENT && a.statusId == ACTIVE) = false := by
          simp [hA]
        have hb0 : (b.accountTypeId == INVESTMENT && b.statusId == ACTIVE) = false := by
          simp [hsame, hA]
        simp [List.filter_cons, h0, hb0, ih]
    · have h0 : (a.accountTypeId == INVESTMENT && a.statusId == ACTIVE) = false := by
        simp [hI]
      have hb0 : (b.accountTypeId == INVESTMENT && b.statusId == ACTIVE) = false := by
        simp [htype, hI]
      simp [List.filter_cons, h0, hb0, ih]

theorem activeGicIds_shadow {s0 s : Bank} (hrel : ShadowRel s0 s) :
    activeGicIds s = activeGicIds s0 :=
  forall₂_shadow_gic hrel

/-! ### C9: scheduler lemmas — failure isolation -/

theorem disburseThrows_error (today : Date) (bad : Nat) (t : Bank)
    (h : disburseThrows today bad t) :
    disburseLoan today bad t = .error "User chequing account not found" := by
  obtain ⟨loan, hg, hst, hdate, hchq⟩ := h
  unfold disburseLoan
  rw [hg]
  dsimp only
  rw [if_neg (by simp [hst]), if_neg (by simp [hdate]), hchq]

theorem disburseThrows_congr (today : Date) (bad : Nat) (t t' : Bank)
    (hacc : t'.accounts = t.accounts) (h : disburseThrows today bad t) :
    disburseThrows today bad t' := by
  obtain ⟨loan, hg, hst, hdate, hchq⟩ := h
  exact ⟨loan, by rw [getLoan_congr t' t hacc]; exact hg, hst, hdate,
    by rw [chequingOf_congr t' t hacc]; exact hchq⟩

theorem disbursePass_isolated (today : Date) (bad : Nat) :
    ∀ (l1 l2 : List Nat) (t : Bank), disburseThrows today bad t →
      runPass (disburseLoan today) (l1 ++ bad :: l2) t =
        runPass (disburseLoan today) (l1 ++ l2) t := by
  intro l1
  induction l1 with
  | nil =>
    intro l2 t h
    simp only [List.nil_append]
    rw [runPass_cons]
    have hkeep : catchStep (disburseLoan today) t bad = t := by
      unfold catchStep
      rw [disburseThrows_error today bad t h]
    rw [hkeep]
  | cons i l1 ih =>
    intro l2 t h
    simp only [List.cons_append]
    rw [runPass_cons, runPass_cons]
    exact ih l2 (catchStep (disburseLoan today) t i)
      (disburseThrows_congr today bad _ _ (catchStep_disburse_accounts today t i) h)

/-- C9: the daily settlement run executes its five passes in the fixed
order — loan disbursement, then interest processing, then payoff check,
then loan maturity check, then GIC maturity check.  With unique account
ids, its outcome equals `runDailyTasksSnapshot`, where every pass iterates
over the snapshot of qualifying (Active) accounts taken at the start of the
run; and in a pass, an account whose processing throws (here: a disbursable
loan whose owner has no chequing account) is skipped without preventing the
processing of the accounts before or after it. -/
theorem runDailyTasks_order_snapshot_isolation (today : Date) (s : Bank)
    (hnd : (s.accounts.map (fun a => a.accountId)).Nodup) :
    runDailyTasks today s =
      checkGICMaturityPass today
        (checkLoanMaturityPass today
          (checkLoanPayoffs
            (processLoanInterestPass today
              (disburseLoanFunds today s)))) ∧
    runDailyTasks today s = runDailyTasksSnapshot today s ∧
    (∀ (bad : Nat) (l1 l2 : List Nat) (t : Bank), disburseThrows today bad t →
      runPass (disburseLoan today) (l1 ++ bad :: l2) t =
        runPass (disburseLoan today) (l1 ++ l2) t) := by
  refine ⟨rfl, ?_, fun bad l1 l2 t h => disbursePass_isolated today bad l1 l2 t h⟩
  unfold runDailyTasks runDailyTasksSnapshot checkGICMaturityPass checkLoanMaturityPass
    checkLoanPayoffs processLoanInterestPass disburseLoanFunds
  dsimp only
  have hacc1 : (runPass (disburseLoan today) (activeLoanIds s) s).accounts = s.accounts :=
    runPass_accounts _ (fun t id => catchStep_disburse_accounts today t id) _ s
  have hA1 : activeLoanIds (runPass (disburseLoan today) (activeLoanIds s) s) =
      activeLoanIds s := activeLoanIds_congr _ _ hacc1
  rw [hA1]
  set s1 := runPass (disburseLoan today) (activeLoanIds s) s with hs1
  have hacc2 : (runPass (processLoanInterest today) (activeLoanIds s) s1).accounts =
      s1.accounts :=
    runPass_accounts _ (fun t id => catchStep_interest_accounts today t id) _ s1
  have hA2 : activeLoanIds (runPass (processLoanInterest today) (activeLoanIds s) s1) =
      activeLoanIds s := by
    rw [activeLoanIds_congr _ s1 hacc2, hs1, hA1]
  rw [hA2]
  set s2 := runPass (processLoanInterest today) (activeLoanIds s) s1 with hs2
  have hrel2 : ShadowRel s s2 :=
    shadowRel_of_accounts_eq (shadowRel_rfl s) (by rw [hs2, hacc2, hs1, hacc1])
  have hrel3 : ShadowRel s (runPass payoffOp (activeLoanIds s) s2) :=
    shadowRel_runPass payoffOp
      (fun s0 t id hr hn => shadowRel_catchStep_payoff t id hr hn)
      (activeLoanIds s) s s2 hrel2 hnd
  set s3 := runPass payoffOp (activeLoanIds s) s2 with hs3
  rw [← maturityPass_snapshot today s s3 hrel3 hnd]
  have hrel4 : ShadowRel s (runPass (checkLoanMaturity today) (activeLoanIds s) s3) :=
    shadowRel_runPass (checkLoanMaturity today)
      (fun s0 t id hr hn => shadowRel_catchStep_maturity today t id hr hn)
      (activeLoanIds s) s s3 hrel3 hnd
  rw [activeGicIds_shadow hrel4]

/-- Witness for C9 on a concrete two-account state. -/
theorem runDailyTasks_order_snapshot_isolation_witness :
    runDailyTasks d0 bankC9 =
      checkGICMaturityPass d0
        (checkLoanMaturityPass d0
          (checkLoanPayoffs
            (processLoanInterestPass d0
              (disburseLoanFunds d0 bankC9)))) ∧
    runDailyTasks d0 bankC9 = runDailyTasksSnapshot d0 bankC9 ∧
    (∀ (bad : Nat) (l1 l2 : List Nat) (t : Bank), disburseThrows d0 bad t →
      runPass (disburseLoan d0) (l1 ++ bad :: l2) t =
        runPass (disburseLoan d0) (l1 ++ l2) t) :=
  runDailyTasks_order_snapshot_isolation d0 bankC9 (by decide)

end BankSpec
